import Mathlib

set_option maxRecDepth 8000

/-!
Shallow embedding of the course-content playback and progress-tracking flow
of `src/courses/studentCourseList.jsx`, and verification of the spec's
claims about it.  JavaScript strings are Lean `String`s, optional (possibly
`null`/`undefined`) fields are `Option`s, and JavaScript numbers used for
time, progress and playback rates are `Rat`.  String primitives are
re-implemented by structural recursion over `List Char` so that every
definition evaluates on concrete inputs.
-/

/-- Does `pat` occur at the very start of `s` (character lists)? -/
def matchesAt : List Char → List Char → Bool
  | [], _ => true
  | _ :: _, [] => false
  | p :: ps, c :: cs => p == c && matchesAt ps cs

/-- Does `pat` occur anywhere in `s` (character lists)? -/
def containsSeq (pat : List Char) : List Char → Bool
  | [] => matchesAt pat []
  | c :: cs => matchesAt pat (c :: cs) || containsSeq pat cs

/-- JavaScript `s.includes(pat)`. -/
def jsIncludes (s pat : String) : Bool :=
  containsSeq pat.data s.data

/-- JavaScript `s.startsWith(pat)`. -/
def jsStartsWith (s pat : String) : Bool :=
  matchesAt pat.data s.data

/-- JavaScript truthiness of an optional string field
(`undefined`, `null` and the empty string are falsy). -/
def jsTruthy : Option String → Bool
  | none => false
  | some s => !(s == "")

/-- JavaScript `a || b || ''` on optional string fields. -/
def jsOrEmpty (a b : Option String) : String :=
  let s := a.getD ""
  if s == "" then b.getD "" else s

/-- The characters after the last occurrence of `sep` (the whole list when
`sep` does not occur), as JavaScript `s.split(sep).pop()` computes it. -/
def afterLastChar (sep : Char) (s : List Char) : List Char :=
  s.foldl (fun acc ch => if ch == sep then [] else acc ++ [ch]) []

/-- `url.split('.').pop().split('?')[0].toLowerCase()` exactly as
`inferLessonType` computes the extension: the text after the last dot of the
whole URL first, then truncated at the first question mark, lowercased. -/
def jsExt (url : String) : String :=
  String.mk (((afterLastChar '.' url.data).takeWhile (fun ch => !(ch == '?'))).map Char.toLower)

/-- The extension as §4.1 of the spec words it: "URL path segment after last
`.`, query string stripped" — the query string is removed first, then the
segment after the last dot is taken, lowercased. -/
def specExt (url : String) : String :=
  String.mk ((afterLastChar '.' (url.data.takeWhile (fun ch => !(ch == '?')))).map Char.toLower)

/-- A lesson record: declared type, content URL or content file reference,
completion flag (all optional upstream). -/
structure LessonRec where
  id : Nat
  title : String
  duration : String
  type : Option String
  content_url : Option String
  content_file : Option String
  description : String
  is_completed : Option Bool
deriving DecidableEq

/-- `lesson.type && lesson.type !== 'Unknown' && lesson.type !== 'unknown'
&& lesson.type !== null` from `inferLessonType`. -/
def declaredTypeUsable : Option String → Bool
  | none => false
  | some t => !(t == "") && !(t == "Unknown") && !(t == "unknown")

/-- `inferLessonType` (studentCourseList.jsx, lines 472-483), translated
clause by clause from the source. -/
def inferLessonType (lesson : LessonRec) : String :=
  if jsOrEmpty lesson.content_url lesson.content_file == "" then "unknown"
  else if jsIncludes (jsOrEmpty lesson.content_url lesson.content_file) "youtube.com" ||
          jsIncludes (jsOrEmpty lesson.content_url lesson.content_file) "youtu.be" then "youtube"
  else if jsExt (jsOrEmpty lesson.content_url lesson.content_file) == "pdf" then "pdf"
  else if jsExt (jsOrEmpty lesson.content_url lesson.content_file) == "ppt" ||
          jsExt (jsOrEmpty lesson.content_url lesson.content_file) == "pptx" then "ppt"
  else if jsExt (jsOrEmpty lesson.content_url lesson.content_file) == "doc" ||
          jsExt (jsOrEmpty lesson.content_url lesson.content_file) == "docx" then "doc"
  else if declaredTypeUsable lesson.type then lesson.type.getD ""
  else if jsStartsWith (jsOrEmpty lesson.content_url lesson.content_file) "http" then "link"
  else "unknown"

/-- The resolver exactly as §4.1 of the spec words it (first match wins),
with the spec's extension extraction `specExt`. -/
def specInferTypeLiteral (lesson : LessonRec) : String :=
  if jsOrEmpty lesson.content_url lesson.content_file == "" then "unknown"
  else if jsIncludes (jsOrEmpty lesson.content_url lesson.content_file) "youtube.com" ||
          jsIncludes (jsOrEmpty lesson.content_url lesson.content_file) "youtu.be" then "youtube"
  else if specExt (jsOrEmpty lesson.content_url lesson.content_file) == "pdf" then "pdf"
  else if specExt (jsOrEmpty lesson.content_url lesson.content_file) == "ppt" ||
          specExt (jsOrEmpty lesson.content_url lesson.content_file) == "pptx" then "ppt"
  else if specExt (jsOrEmpty lesson.content_url lesson.content_file) == "doc" ||
          specExt (jsOrEmpty lesson.content_url lesson.content_file) == "docx" then "doc"
  else if declaredTypeUsable lesson.type then lesson.type.getD ""
  else if jsStartsWith (jsOrEmpty lesson.content_url lesson.content_file) "http" then "link"
  else "unknown"

/-- The §4.1 algorithm amended only in the extension step: the extension is
the text of the whole URL after its last `.`, truncated at the first `?`,
lowercased (`jsExt`), as the code computes it. -/
def specInferTypeAmended (lesson : LessonRec) : String :=
  if jsOrEmpty lesson.content_url lesson.content_file == "" then "unknown"
  else if jsIncludes (jsOrEmpty lesson.content_url lesson.content_file) "youtube.com" ||
          jsIncludes (jsOrEmpty lesson.content_url lesson.content_file) "youtu.be" then "youtube"
  else if jsExt (jsOrEmpty lesson.content_url lesson.content_file) == "pdf" then "pdf"
  else if jsExt (jsOrEmpty lesson.content_url lesson.content_file) == "ppt" ||
          jsExt (jsOrEmpty lesson.content_url lesson.content_file) == "pptx" then "ppt"
  else if jsExt (jsOrEmpty lesson.content_url lesson.content_file) == "doc" ||
          jsExt (jsOrEmpty lesson.content_url lesson.content_file) == "docx" then "doc"
  else if declaredTypeUsable lesson.type then lesson.type.getD ""
  else if jsStartsWith (jsOrEmpty lesson.content_url lesson.content_file) "http" then "link"
  else "unknown"

/-- Which result a recognizable extension forces in steps 3a-3c of §4.1. -/
def extResolve (ext : String) : Option String :=
  if ext == "pdf" then some "pdf"
  else if ext == "ppt" || ext == "pptx" then some "ppt"
  else if ext == "doc" || ext == "docx" then some "doc"
  else none

/-- A lesson whose URL has its last dot inside the query string; the code
and the spec's extension rules disagree on it. -/
def c1Lesson : LessonRec :=
  { id := 1, title := "L", duration := "5m", type := none,
    content_url := some "http://e.com/file?x=a.pdf", content_file := none,
    description := "", is_completed := some false }

/-- The spec's own example shape for extension precedence: a lesson declared
`video` whose URL ends in `.pdf`. -/
def c1WitnessLesson : LessonRec :=
  { id := 2, title := "W", duration := "1m", type := some "video",
    content_url := some "x.pdf", content_file := none,
    description := "", is_completed := none }

/-- The Media Player's state for a native-video playback session
(`MediaPlayer`, studentCourseList.jsx lines 92-313): the `playing`,
`progress`, `duration` and `completed` pieces of state the claims concern. -/
structure PlayerState where
  playing : Bool
  progress : Rat
  duration : Rat
  completed : Bool
deriving DecidableEq

/-- The events the embedded handlers react to: a `timeupdate` from the video
element carrying the current time (`handleTimeUpdate`, lines 131-140), the
native `ended` event (lines 218-222), and the dialog reopening the player
(`useEffect` on `open`, lines 188-195). -/
inductive PlayerEvent where
  | timeUpdate (currentTime : Rat)
  | endedEvent
  | openEvent
deriving DecidableEq

/-- One handler invocation of the Media Player, returning the new state and
whether the `onEnded` callback prop was invoked.  `handleTimeUpdate` sets
`progress` and flips `completed` once current time reaches duration − 1, but
never calls the callback; only the native `ended` handler calls it. -/
def playerStep (s : PlayerState) : PlayerEvent → PlayerState × Bool
  | .timeUpdate t =>
    if 0 < s.duration ∧ s.duration - 1 ≤ t ∧ s.completed = false then
      ({ s with progress := t / s.duration * 100, completed := true }, false)
    else
      ({ s with progress := t / s.duration * 100 }, false)
  | .endedEvent => ({ s with playing := false, completed := true }, true)
  | .openEvent => ({ s with playing := false, progress := 0, completed := false }, false)

/-- A session ten seconds long, not yet completed. -/
def c3State : PlayerState :=
  { playing := true, progress := 0, duration := 10, completed := false }

/-- The playback-rate options the player's select element offers
(studentCourseList.jsx line 270). -/
def playbackRates : List Rat := [0.5, 0.75, 1, 1.25, 1.5, 2]

/-- The fixed set §4.2 of the spec claims is offered. -/
def specClaimedPlaybackRates : List Rat := [0.5, 0.75, 1, 1.25, 1.2, 1.5, 2]

/-- Payload of `setSelectedMedia` (`{url, title, description, type}`). -/
structure MediaSel where
  url : String
  title : String
  description : String
  type : String
deriving DecidableEq

/-- Payload of `setSelectedDocument` (`{url, title, type}`). -/
structure DocSel where
  url : String
  title : String
  type : String
deriving DecidableEq

/-- A course-level resource record. -/
structure ResourceRec where
  id : Nat
  title : String
  type : String
  content_url : Option String
  content_file : Option String
  description : String
deriving DecidableEq

/-- The viewer-related state of `CourseDialog`: selected lesson (with its
detected type), selected media, selected document. -/
structure DialogState where
  selectedLesson : Option (LessonRec × String)
  selectedMedia : Option MediaSel
  selectedDocument : Option DocSel
deriving DecidableEq

/-- `resource.content_url?.includes(pat)` (optional chaining: `undefined`
is falsy). -/
def optIncludes (o : Option String) (pat : String) : Bool :=
  match o with
  | none => false
  | some s => jsIncludes s pat

/-- `handleLessonSelect` (studentCourseList.jsx lines 485-507): clears both
viewer states, then dispatches on the detected type. -/
def handleLessonSelect (s : DialogState) (lesson : LessonRec) : DialogState :=
  let detectedType := inferLessonType lesson
  let s1 : DialogState :=
    { s with selectedLesson := some (lesson, detectedType),
             selectedMedia := none, selectedDocument := none }
  if detectedType == "video" || detectedType == "youtube" then
    { s1 with selectedMedia := some ({
        url := jsOrEmpty lesson.content_url lesson.content_file,
        title := if lesson.title == "" then "Lesson Media" else lesson.title,
        description := lesson.description,
        type := detectedType } : MediaSel) }
  else if detectedType == "link" then s1
  else if detectedType == "pdf" || detectedType == "ppt" || detectedType == "doc" then
    { s1 with selectedDocument := some ({
        url := jsOrEmpty lesson.content_url lesson.content_file,
        title := if lesson.title == "" then "Lesson Document" else lesson.title,
        type := detectedType } : DocSel) }
  else s1

/-- `handleResourceSelect` (studentCourseList.jsx lines 509-528).  Note the
`link` branch only opens a new tab and leaves both viewer states untouched. -/
def handleResourceSelect (s : DialogState) (r : ResourceRec) : DialogState :=
  if r.type == "video" || optIncludes r.content_url "youtube.com" ||
      optIncludes r.content_url "youtu.be" then
    { s with
      selectedMedia := some ({
        url := jsOrEmpty r.content_url r.content_file,
        title := if r.title == "" then "Resource Media" else r.title,
        description := r.description,
        type := if optIncludes r.content_url "youtube.com" ||
                   optIncludes r.content_url "youtu.be" then "youtube" else "video" } : MediaSel),
      selectedDocument := none }
  else if r.type == "link" then s
  else
    { s with
      selectedDocument := some ({
        url := jsOrEmpty r.content_url r.content_file,
        title := if r.title == "" then "Resource Document" else r.title,
        type := r.type } : DocSel),
      selectedMedia := none }

/-- A media selection left over from a previously opened video lesson. -/
def c4Media : MediaSel :=
  { url := "http://v/x.mp4", title := "Video", description := "", type := "video" }

/-- Dialog state in which a media viewer is currently open. -/
def c4State : DialogState :=
  { selectedLesson := none, selectedMedia := some c4Media, selectedDocument := none }

/-- A link-type resource. -/
def c4Resource : ResourceRec :=
  { id := 9, title := "External", type := "link",
    content_url := some "http://ex.com/page", content_file := none, description := "" }

/-- Dialog state with no viewer open. -/
def c4EmptyState : DialogState :=
  { selectedLesson := none, selectedMedia := none, selectedDocument := none }

/-- An ordinary lesson used to instantiate the C4 theorem. -/
def c4Lesson : LessonRec :=
  { id := 3, title := "Doc lesson", duration := "2m", type := none,
    content_url := some "http://e.com/notes.docx", content_file := none,
    description := "", is_completed := none }

/-- A module record; the `lessons` field may be absent upstream. -/
structure ModuleRec where
  id : Nat
  title : String
  lessons : Option (List LessonRec)
deriving DecidableEq

/-- `calculateModuleProgress` (studentCourseList.jsx lines 557-561): 0 for a
missing or empty lesson list, else the rounded percentage of lessons whose
`is_completed` flag is truthy. -/
def calculateModuleProgress (m : ModuleRec) : Int :=
  match m.lessons with
  | none => 0
  | some lessons =>
    if lessons.length = 0 then 0
    else
      round ((((lessons.filter fun l => l.is_completed == some true).length : Rat) /
        (lessons.length : Rat)) * 100)

/-- A transformed course record as the list view holds it (the fields of the
enrollment spread plus the derived ones added by the transform). -/
structure CourseView where
  courseId : Nat
  title : String
  thumbnail : String
  description : String
  progress : Rat
  status : String
  started_at : Option String
  completed_at : Option String
  enrolled_at : String
  modules : List ModuleRec
  resources : List ResourceRec
  instructors : List String
deriving DecidableEq

/-- The local course update computed by `handleLessonComplete`
(studentCourseList.jsx lines 564-586) from the backend progress `newProgress`
and the current time `now`: progress is always mirrored; at 100 the status
becomes completed with a fresh completion timestamp; else at positive
progress with no prior start timestamp the status becomes in_progress with a
fresh start timestamp; otherwise status and timestamps are untouched. -/
def completeLessonUpdate (course : CourseView) (newProgress : Rat) (now : String) : CourseView :=
  if newProgress = 100 then
    { course with progress := newProgress, status := "completed", completed_at := some now }
  else if 0 < newProgress ∧ jsTruthy course.started_at = false then
    { course with progress := newProgress, status := "in_progress", started_at := some now }
  else
    { course with progress := newProgress }

/-- The whole `handleLessonComplete` try/catch as a function of the two
backend call outcomes: any failure is caught and the course record is left
exactly as it was. -/
def completeLessonResult (course : CourseView) (r1 : Except String Unit)
    (r2 : Except String Rat) (now : String) : CourseView :=
  match r1 with
  | .error _ => course
  | .ok _ =>
    match r2 with
    | .error _ => course
    | .ok p => completeLessonUpdate course p now

/-- The two backend endpoints `handleLessonComplete` invokes. -/
inductive BackendCall where
  | markLessonComplete
  | getCourseProgress
deriving DecidableEq

/-- The sequence of backend calls one run of `handleLessonComplete` issues:
`completeLesson` is awaited first, and `getCourseProgress` is issued only
when that await resolved successfully. -/
def completeLessonTrace (r1 : Except String Unit) : List BackendCall :=
  BackendCall.markLessonComplete ::
    (match r1 with
     | .ok _ => [BackendCall.getCourseProgress]
     | .error _ => [])

/-- A raw backend course object (`course.course`). -/
structure RawCourse where
  id : Nat
  title : String
  thumbnail : String
  description : String
  modules : Option (List ModuleRec)
  resources : Option (List ResourceRec)
  instructors : Option (List String)
deriving DecidableEq

/-- A raw enrollment record as passed in the `courses` prop. -/
structure Enrollment where
  course : Option RawCourse
  progress : Rat
  status : String
  started_at : Option String
  completed_at : Option String
  enrolled_at : String
  user : Nat
  bookmarked : Bool
deriving DecidableEq

/-- The per-course transform of `StudentCourseList` (studentCourseList.jsx
lines 909-938, repeated at 940-999): invalid records map to `none`; the rest
get defaults, absolute thumbnail URLs, defaulted lesson completion flags and
the derived status. -/
def transformCourse (apiBase : String) (e : Enrollment) : Option CourseView :=
  match e.course with
  | none => none
  | some c => some {
      courseId := c.id,
      title := if c.title == "" then "Untitled Course" else c.title,
      thumbnail := if jsIncludes c.thumbnail "http" then c.thumbnail else apiBase ++ c.thumbnail,
      description := c.description,
      progress := e.progress,
      status := if jsTruthy e.completed_at then "completed"
                else if 0 < e.progress then "in_progress" else "not_started",
      started_at := e.started_at,
      completed_at := e.completed_at,
      enrolled_at := e.enrolled_at,
      modules := (c.modules.getD []).map fun m =>
        { m with lessons := some ((m.lessons.getD []).map fun l =>
            { l with is_completed := some (l.is_completed.getD false) }) },
      resources := c.resources.getD [],
      instructors := c.instructors.getD [] }

/-- `handleCourseProgressUpdate` (studentCourseList.jsx lines 883-897): maps
over the filtered list, patching the four progress fields of every course
whose `courseId` matches and leaving every other course untouched. -/
def handleCourseProgressUpdate (prev : List CourseView) (courseId : Nat)
    (newProgress : Rat) (newStatus : String)
    (startedAt completedAt : Option String) : List CourseView :=
  prev.map fun course =>
    if course.courseId == courseId then
      { course with progress := newProgress, status := newStatus,
                    started_at := startedAt, completed_at := completedAt }
    else course

/-- A course record used to instantiate the C2 theorem. -/
def c2Course : CourseView :=
  { courseId := 11, title := "Algebra", thumbnail := "http://x/t.png",
    description := "", progress := 40, status := "in_progress",
    started_at := some "2025-01-02", completed_at := none,
    enrolled_at := "2025-01-01", modules := [], resources := [], instructors := [] }

/-- A course record used to instantiate the C5 theorem. -/
def c5Course : CourseView :=
  { courseId := 12, title := "Calculus", thumbnail := "http://x/u.png",
    description := "", progress := 20, status := "in_progress",
    started_at := some "2025-02-02", completed_at := none,
    enrolled_at := "2025-02-01", modules := [], resources := [], instructors := [] }

/-- An enrollment whose completion timestamp is set but whose progress is 0,
used to instantiate the C6 theorem. -/
def c6Enrollment : Enrollment :=
  { course := some ({
      id := 7, title := "Algebra", thumbnail := "http://x/t.png",
      description := "", modules := none, resources := none,
      instructors := none } : RawCourse),
    progress := 0, status := "", started_at := none,
    completed_at := some "2025-03-01", enrolled_at := "2025-01-01",
    user := 1, bookmarked := false }

/-- API base URL used to instantiate the C6 theorem. -/
def c6ApiBase : String := "base"

/-- The view `transformCourse` produces from `c6Enrollment`. -/
def c6View : CourseView :=
  { courseId := 7, title := "Algebra", thumbnail := "http://x/t.png",
    description := "", progress := 0, status := "completed",
    started_at := none, completed_at := some "2025-03-01",
    enrolled_at := "2025-01-01", modules := [], resources := [], instructors := [] }

/-- A module with one completed and one uncompleted lesson, used to
instantiate the C9 theorem. -/
def c9Module : ModuleRec :=
  { id := 21, title := "M1", lessons := some [
      { id := 1, title := "A", duration := "1m", type := none,
        content_url := none, content_file := none, description := "",
        is_completed := some true },
      { id := 2, title := "B", duration := "1m", type := none,
        content_url := none, content_file := none, description := "",
        is_completed := some false }] }

/-- First course of the concrete list for the C10 witness. -/
def c10CourseA : CourseView :=
  { courseId := 1, title := "A", thumbnail := "http://x/a.png",
    description := "", progress := 10, status := "in_progress",
    started_at := some "2025-01-02", completed_at := none,
    enrolled_at := "2025-01-01", modules := [], resources := [], instructors := [] }

/-- Second course of the concrete list for the C10 witness. -/
def c10CourseB : CourseView :=
  { courseId := 2, title := "B", thumbnail := "http://x/b.png",
    description := "", progress := 0, status := "not_started",
    started_at := none, completed_at := none,
    enrolled_at := "2025-01-03", modules := [], resources := [], instructors := [] }

/-- Claim C1 as stated is false: on the URL `http://e.com/file?x=a.pdf` the
code's resolver answers `pdf` (its extension is taken after the last dot of
the whole URL, before stripping the query) while the §4.1 algorithm with the
spec's extension rule (query string stripped first) answers `link`. -/
theorem c1_counterexample :
    inferLessonType c1Lesson = "pdf" ∧
    specInferTypeLiteral c1Lesson = "link" ∧
    inferLessonType c1Lesson ≠ specInferTypeLiteral c1Lesson := by
  refine ⟨by decide, by decide, by decide⟩

/-- Claim C1 (amended): the effective lesson type equals the §4.1 first-match
algorithm with the extension computed as the text after the last `.` of the
whole URL truncated at the first `?` (case-insensitive); and for every
non-YouTube lesson with a nonempty URL whose extension is recognizable the
output is forced by the extension alone, independent of the declared type. -/
theorem c1_theorem :
    (∀ lesson, inferLessonType lesson = specInferTypeAmended lesson) ∧
    (∀ lesson s,
      (jsOrEmpty lesson.content_url lesson.content_file == "") = false →
      jsIncludes (jsOrEmpty lesson.content_url lesson.content_file) "youtube.com" = false →
      jsIncludes (jsOrEmpty lesson.content_url lesson.content_file) "youtu.be" = false →
      extResolve (jsExt (jsOrEmpty lesson.content_url lesson.content_file)) = some s →
      inferLessonType lesson = s) := by
  constructor
  · intro lesson
    rfl
  · intro lesson s h0 h1 h2 hext
    cases h3 : (jsExt (jsOrEmpty lesson.content_url lesson.content_file) == "pdf") <;>
      cases h4 : (jsExt (jsOrEmpty lesson.content_url lesson.content_file) == "ppt") <;>
        cases h5 : (jsExt (jsOrEmpty lesson.content_url lesson.content_file) == "pptx") <;>
          cases h6 : (jsExt (jsOrEmpty lesson.content_url lesson.content_file) == "doc") <;>
            cases h7 : (jsExt (jsOrEmpty lesson.content_url lesson.content_file) == "docx") <;>
              simp_all [inferLessonType, extResolve]

/-- Witness for C1: the amended theorem applied at the concrete lesson
`{type: video, url: x.pdf}` yields `pdf`. -/
theorem c1_witness : inferLessonType c1WitnessLesson = "pdf" :=
  c1_theorem.2 c1WitnessLesson "pdf" (by decide) (by decide) (by decide) (by decide)

/-- Claim C3 as stated is false: when current time reaches duration − 1
second (here 9 of 10), `handleTimeUpdate` transitions the session to
`completed` but the `onEnded`/`onComplete` callback is not invoked on that
transition. -/
theorem c3_counterexample :
    (playerStep c3State (.timeUpdate 9)).1.completed = true ∧
    (playerStep c3State (.timeUpdate 9)).2 = false := by
  have h : (0 : Rat) < c3State.duration ∧ c3State.duration - 1 ≤ 9 ∧
      c3State.completed = false :=
    ⟨by norm_num [c3State], by norm_num [c3State], rfl⟩
  simp only [playerStep]
  rw [if_pos h]
  exact ⟨rfl, rfl⟩

/-- Claim C3 (amended): for native video the session transitions to
`completed` once current time reaches duration − 1 second, but that
transition does not invoke the callback; the `onEnded`/`onComplete` callback
is invoked only by the video element's native `ended` event (which also sets
`completed`), and that event is the sole trigger of the callback; `completed`
stays set across further time updates and is reset on reopening. -/
theorem c3_theorem (s : PlayerState) (t : Rat) :
    (0 < s.duration → s.duration - 1 ≤ t →
      (playerStep s (.timeUpdate t)).1.completed = true) ∧
    (playerStep s (.timeUpdate t)).2 = false ∧
    (playerStep s .endedEvent).1.completed = true ∧
    (playerStep s .endedEvent).2 = true ∧
    (∀ e, (playerStep s e).2 = true → e = .endedEvent) ∧
    (s.completed = true → (playerStep s (.timeUpdate t)).1.completed = true) ∧
    (playerStep s .openEvent).1.completed = false := by
  refine ⟨?_, ?_, rfl, rfl, ?_, ?_, rfl⟩
  · intro hd ht
    simp only [playerStep]
    split_ifs with h
    · rfl
    · rcases Bool.eq_false_or_eq_true s.completed with hc | hc
      · exact hc
      · exact absurd ⟨hd, ht, hc⟩ h
  · simp only [playerStep]
    split_ifs <;> rfl
  · intro e he
    cases e with
    | timeUpdate u =>
      simp only [playerStep] at he
      split_ifs at he
    | endedEvent => rfl
    | openEvent => simp_all [playerStep]
  · intro hc
    simp only [playerStep]
    split_ifs with h
    · rfl
    · exact hc

/-- Witness for C3: the amended theorem at the concrete ten-second session,
with the completion threshold reached at time 9. -/
theorem c3_witness : (playerStep c3State (.timeUpdate 9)).1.completed = true :=
  (c3_theorem c3State 9).1 (by norm_num [c3State]) (by norm_num [c3State])

/-- Claim C4 as stated is false: with a media viewer already open, selecting
a link-type resource leaves the dialog state entirely unchanged — the
previously selected media state is not cleared first. -/
theorem c4_counterexample :
    handleResourceSelect c4State c4Resource = c4State ∧
    (handleResourceSelect c4State c4Resource).selectedMedia = some c4Media := by
  exact ⟨by decide, by decide⟩

/-- Claim C4 (amended): selecting a lesson always clears both viewer states
first and then sets at most one of them, so afterwards at most one is
non-empty; selecting a resource either sets exactly one viewer state and
clears the other, or — for link resources — leaves the state unchanged, so
it preserves the invariant that the two viewer states are never both
non-empty. -/
theorem c4_theorem (s : DialogState) (l : LessonRec) (r : ResourceRec) :
    ((handleLessonSelect s l).selectedMedia = none ∨
      (handleLessonSelect s l).selectedDocument = none) ∧
    ((s.selectedMedia = none ∨ s.selectedDocument = none) →
      ((handleResourceSelect s r).selectedMedia = none ∨
        (handleResourceSelect s r).selectedDocument = none)) := by
  constructor
  · simp only [handleLessonSelect]
    split_ifs <;> simp
  · intro h
    simp only [handleResourceSelect]
    split_ifs <;> simp_all

/-- Witness for C4: the amended theorem's resource part applied at a state
with no viewer open and the concrete link resource. -/
theorem c4_witness :
    (handleResourceSelect c4EmptyState c4Resource).selectedMedia = none ∨
      (handleResourceSelect c4EmptyState c4Resource).selectedDocument = none :=
  (c4_theorem c4EmptyState c4Lesson c4Resource).2 (Or.inl rfl)

/-- Claim C8 as stated is false: the spec's claimed fixed set contains 1.2,
but the player's select element does not offer a 1.2 playback rate. -/
theorem c8_counterexample :
    ((1.2 : Rat) ∈ specClaimedPlaybackRates) ∧ ((1.2 : Rat) ∉ playbackRates) := by
  constructor
  · norm_num [specClaimedPlaybackRates]
  · norm_num [playbackRates]

/-- Claim C8 (amended): the playback-rate selection offers exactly the fixed
set {0.5, 0.75, 1, 1.25, 1.5, 2} and no other values. -/
theorem c8_theorem (q : Rat) :
    q ∈ playbackRates ↔
      (q = 0.5 ∨ q = 0.75 ∨ q = 1 ∨ q = 1.25 ∨ q = 1.5 ∨ q = 2) := by
  simp [playbackRates]

/-- Witness for C8: 2 is an offered playback rate by the amended theorem. -/
theorem c8_witness : (2 : Rat) ∈ playbackRates :=
  (c8_theorem 2).mpr (by norm_num)

/-- Claim C2: after a successful `completeLesson` run returning percentage
`p`, the local course record gets progress = p; at p = 100 the status
becomes `completed` with the completion timestamp set to the current time
(start timestamp untouched); else at p > 0 with no prior start timestamp the
status becomes `in_progress` with the start timestamp set to the current
time (completion timestamp untouched); in all other cases status and both
timestamps keep their previous values. -/
theorem c2_theorem (c : CourseView) (p : Rat) (now : String) :
    (completeLessonUpdate c p now).progress = p ∧
    (p = 100 →
      (completeLessonUpdate c p now).status = "completed" ∧
      (completeLessonUpdate c p now).completed_at = some now ∧
      (completeLessonUpdate c p now).started_at = c.started_at) ∧
    (p ≠ 100 → 0 < p → jsTruthy c.started_at = false →
      (completeLessonUpdate c p now).status = "in_progress" ∧
      (completeLessonUpdate c p now).started_at = some now ∧
      (completeLessonUpdate c p now).completed_at = c.completed_at) ∧
    (p ≠ 100 → (¬ 0 < p ∨ jsTruthy c.started_at = true) →
      (completeLessonUpdate c p now).status = c.status ∧
      (completeLessonUpdate c p now).started_at = c.started_at ∧
      (completeLessonUpdate c p now).completed_at = c.completed_at) := by
  unfold completeLessonUpdate
  split_ifs with h1 h2
  · exact ⟨rfl, fun _ => ⟨rfl, rfl, rfl⟩, fun hp => absurd h1 hp, fun hp => absurd h1 hp⟩
  · refine ⟨rfl, fun hp => absurd hp h1, fun _ _ _ => ⟨rfl, rfl, rfl⟩, fun hp hor => ?_⟩
    rcases hor with h | h
    · exact absurd h2.1 h
    · rw [h2.2] at h
      exact absurd h Bool.false_ne_true
  · exact ⟨rfl, fun hp => absurd hp h1, fun hp hlt hjt => absurd ⟨hlt, hjt⟩ h2,
      fun hp hor => ⟨rfl, rfl, rfl⟩⟩

/-- Witness for C2: at backend percentage 100 the concrete course becomes
completed with the fresh completion timestamp. -/
theorem c2_witness :
    (completeLessonUpdate c2Course 100 "2025-06-01").status = "completed" ∧
    (completeLessonUpdate c2Course 100 "2025-06-01").completed_at = some "2025-06-01" := by
  have h := (c2_theorem c2Course 100 "2025-06-01").2.1 rfl
  exact ⟨h.1, h.2.1⟩

/-- Claim C5: if either backend call inside `completeLesson` fails, the
caught error leaves the local course record — progress, status and both
timestamps — exactly at its pre-completion value. -/
theorem c5_theorem (c : CourseView) (r1 : Except String Unit) (r2 : Except String Rat)
    (now : String) (h : (∃ e, r1 = .error e) ∨ (∃ e, r2 = .error e)) :
    completeLessonResult c r1 r2 now = c := by
  cases r1 with
  | error e => rfl
  | ok u =>
    cases r2 with
    | error e => rfl
    | ok p =>
      rcases h with ⟨e, he⟩ | ⟨e, he⟩ <;> exact Except.noConfusion he

/-- Witness for C5: a failing mark-complete call leaves the concrete course
record unchanged. -/
theorem c5_witness :
    completeLessonResult c5Course (.error "network down") (.ok 50) "2025-06-01" = c5Course :=
  c5_theorem c5Course (.error "network down") (.ok 50) "2025-06-01"
    (Or.inl ⟨"network down", rfl⟩)

/-- Claim C6: the list transform derives status as `completed` when the
completion timestamp is set, else `in_progress` when progress > 0, else
`not_started`; in particular a set completion timestamp forces `completed`
regardless of the numeric progress value. -/
theorem c6_theorem (apiBase : String) (e : Enrollment) (v : CourseView)
    (h : transformCourse apiBase e = some v) :
    v.status = (if jsTruthy e.completed_at then "completed"
                else if 0 < e.progress then "in_progress" else "not_started") ∧
    (jsTruthy e.completed_at = true → v.status = "completed") := by
  cases hc : e.course with
  | none => simp [transformCourse, hc] at h
  | some c =>
    simp only [transformCourse, hc, Option.some.injEq] at h
    subst h
    constructor
    · rfl
    · intro ht
      simp [ht]

/-- Witness for C6: an enrollment with a set completion timestamp and
progress 0 still derives status `completed`. -/
theorem c6_witness : c6View.status = "completed" :=
  (c6_theorem c6ApiBase c6Enrollment c6View rfl).2 rfl

/-- Claim C7: in every run of `completeLesson` the first backend call is
mark-lesson-complete, every get-course-progress occurrence is preceded by a
resolved mark-lesson-complete, no progress fetch happens when the completion
call fails, and on success the trace is exactly the two calls in order. -/
theorem c7_theorem (r1 : Except String Unit) :
    (completeLessonTrace r1).head? = some BackendCall.markLessonComplete ∧
    (∀ i (h : i < (completeLessonTrace r1).length),
      (completeLessonTrace r1).get ⟨i, h⟩ = BackendCall.getCourseProgress →
      BackendCall.markLessonComplete ∈ (completeLessonTrace r1).take i) ∧
    (∀ e, r1 = .error e → completeLessonTrace r1 = [BackendCall.markLessonComplete]) ∧
    (∀ u, r1 = .ok u → completeLessonTrace r1 =
      [BackendCall.markLessonComplete, BackendCall.getCourseProgress]) := by
  cases r1 with
  | error e =>
    refine ⟨rfl, ?_, fun _ _ => rfl, fun u hu => Except.noConfusion hu⟩
    intro i h hget
    cases i with
    | zero => exact BackendCall.noConfusion hget
    | succ n => simp [completeLessonTrace] at h
  | ok u =>
    refine ⟨rfl, ?_, fun e he => Except.noConfusion he, fun u2 hu => rfl⟩
    intro i h hget
    cases i with
    | zero => exact BackendCall.noConfusion hget
    | succ n =>
      cases n with
      | zero => simp [completeLessonTrace]
      | succ m =>
        simp only [completeLessonTrace, List.length_cons, List.length_nil] at h
        omega

/-- Witness for C7: on a successful completion call the trace is exactly the
two calls, completion first. -/
theorem c7_witness :
    completeLessonTrace (.ok ()) =
      [BackendCall.markLessonComplete, BackendCall.getCourseProgress] :=
  (c7_theorem (.ok ())).2.2.2 () rfl

/-- Claim C9: `calculateModuleProgress` is total and well-bounded — 0 on a
missing or empty lesson list, and for n ≥ 1 lessons with k completed it
returns round(100·k/n), an integer between 0 and 100. -/
theorem c9_theorem (m : ModuleRec) :
    (m.lessons = none → calculateModuleProgress m = 0) ∧
    (m.lessons = some [] → calculateModuleProgress m = 0) ∧
    (∀ ls, m.lessons = some ls → ls ≠ [] →
      calculateModuleProgress m =
        round (((100 : Rat) * ((ls.filter fun l => l.is_completed == some true).length : Rat)) /
          (ls.length : Rat)) ∧
      0 ≤ calculateModuleProgress m ∧ calculateModuleProgress m ≤ 100) := by
  refine ⟨fun h => by simp [calculateModuleProgress, h],
          fun h => by simp [calculateModuleProgress, h], ?_⟩
  intro ls hls hne
  have hlen : 0 < ls.length := List.length_pos.mpr hne
  have hlen0 : ls.length ≠ 0 := Nat.pos_iff_ne_zero.mp hlen
  have hkn : (ls.filter fun l => l.is_completed == some true).length ≤ ls.length :=
    List.length_filter_le _ _
  have hcalc : calculateModuleProgress m =
      round ((((ls.filter fun l => l.is_completed == some true).length : Rat) /
        (ls.length : Rat)) * 100) := by
    simp [calculateModuleProgress, hls, hlen0]
  have hq0 : (0 : Rat) ≤ (((ls.filter fun l => l.is_completed == some true).length : Rat) /
      (ls.length : Rat)) * 100 := by positivity
  have hq1 : (((ls.filter fun l => l.is_completed == some true).length : Rat) /
      (ls.length : Rat)) * 100 ≤ 100 := by
    have hdiv : ((ls.filter fun l => l.is_completed == some true).length : Rat) /
        (ls.length : Rat) ≤ 1 := by
      rw [div_le_one (by exact_mod_cast hlen)]
      exact_mod_cast hkn
    nlinarith
  refine ⟨?_, ?_, ?_⟩
  · rw [hcalc]
    congr 1
    ring
  · rw [hcalc, round_eq]
    exact Int.le_floor.mpr (by push_cast; linarith)
  · rw [hcalc, round_eq]
    have hfl : ⌊(((ls.filter fun l => l.is_completed == some true).length : Rat) /
        (ls.length : Rat)) * 100 + 1 / 2⌋ < 101 :=
      Int.floor_lt.mpr (by push_cast; linarith)
    omega

/-- Witness for C9: the module with one of two lessons completed has a
progress value within bounds. -/
theorem c9_witness :
    0 ≤ calculateModuleProgress c9Module ∧ calculateModuleProgress c9Module ≤ 100 := by
  have h := (c9_theorem c9Module).2.2 _ rfl (by simp)
  exact ⟨h.2.1, h.2.2⟩

/-- Claim C10: `handleCourseProgressUpdate` preserves the list length,
leaves every course whose `courseId` differs entirely unchanged, and for a
matching course changes exactly the four fields progress, status,
started_at, completed_at while preserving all others. -/
theorem c10_theorem (prev : List CourseView) (cid : Nat) (p : Rat) (st : String)
    (sa ca : Option String) :
    (handleCourseProgressUpdate prev cid p st sa ca).length = prev.length ∧
    ∀ (i : Nat) (h : i < prev.length)
      (h2 : i < (handleCourseProgressUpdate prev cid p st sa ca).length),
      ((prev.get ⟨i, h⟩).courseId ≠ cid →
        (handleCourseProgressUpdate prev cid p st sa ca).get ⟨i, h2⟩ = prev.get ⟨i, h⟩) ∧
      ((prev.get ⟨i, h⟩).courseId = cid →
        (handleCourseProgressUpdate prev cid p st sa ca).get ⟨i, h2⟩ =
          { prev.get ⟨i, h⟩ with
              progress := p, status := st,
              started_at := sa, completed_at := ca }) := by
  constructor
  · simp [handleCourseProgressUpdate]
  · intro i h h2
    constructor
    · intro hne
      rw [List.get_eq_getElem] at hne
      simp [handleCourseProgressUpdate, hne]
    · intro heq
      rw [List.get_eq_getElem] at heq
      simp [handleCourseProgressUpdate, heq]

/-- Witness for C10: updating course id 3 in a list holding ids 1 and 2
leaves the first course untouched. -/
theorem c10_witness :
    (handleCourseProgressUpdate [c10CourseA, c10CourseB] 3 50 "in_progress" none none).get
      ⟨0, by norm_num [handleCourseProgressUpdate]⟩ = c10CourseA := by
  have h := (c10_theorem [c10CourseA, c10CourseB] 3 50 "in_progress" none none).2 0
    (by norm_num) (by norm_num [handleCourseProgressUpdate])
  exact h.1 (by decide)
